import Mathlib

/-!
Shallow embedding of the pysat parameter store (`pysat/_params.py`) and the
constellation constructor (`pysat/_constellation.py`).

The parameter store is modelled as explicit state passing:
* `ParamState.data`  — the in-memory settings mapping (`self.data`),
* `ParamState.disk`  — the parsed contents of the backing settings file
  (`none` when the file is absent or unreadable),
* `ParamState.writes` — the number of completed `store()` calls.

Python exceptions propagate while leaving `self` mutations in place, so every
mutating operation returns `ParamState × Option PErr`: the state after the
call, together with the raised exception when one escapes.  Lock acquisition
depends on runtime contention, so each operation takes one boolean oracle per
lock acquisition it may attempt, saying whether that acquisition succeeds
within its timeout; `Parameters.__setitem__` on `data_dirs` calls `store()`
twice and so acquires the lock twice, with independent outcomes.

Filesystem-dependent primitives (`os.path.expanduser`, `os.path.expandvars`,
`os.path.normpath`, `os.path.isdir`, `os.path.exists`, `os.path.isfile`, file
contents) are abstracted into `FS` / `ConstructFS` records, so the theorems
quantify over every filesystem.
-/

/-- JSON values, the universe of settings stored by the parameter store. -/
inductive JValue where
  | str (s : String)
  | num (n : Int)
  | bool (b : Bool)
  | null
  | arr (l : List JValue)
  | obj (m : List (String × JValue))

/-- A parsed JSON object: an insertion-ordered association list, as a Python
dict is. -/
def JMap : Type := List (String × JValue)

/-- Lookup in a Python dict (`self.data[item]`). -/
def jlookup (m : JMap) (k : String) : Option JValue :=
  match m with
  | [] => none
  | (k1, v1) :: rest => if k1 = k then some v1 else jlookup rest k

/-- Assignment in a Python dict (`self.data[key] = value`): an existing key is
updated in place, a new key is appended at the end. -/
def jinsert (m : JMap) (k : String) (v : JValue) : JMap :=
  match m with
  | [] => [(k, v)]
  | (k1, v1) :: rest => if k1 = k then (k, v) :: rest else (k1, v1) :: jinsert rest k v

/-- Python exceptions raised by the modelled code. -/
inductive PErr where
  | osError (msg : String)
  | valueError (msg : String)
  | runtimeError (msg : String)
  | keyError (key : String)
  | typeError (msg : String)
  | lockTimeout
  | jsonError (file : String)
  deriving Repr, DecidableEq

/-- Join of two path components, as POSIX `os.path.join` does. -/
def joinPath (a b : String) : String := a ++ "/" ++ b

/-- The fixed settings file name (`sfname` in `Parameters.__init__`). -/
def sfname : String := "pysat_settings.json"

/-- Value `dir_format` in `Parameters.__init__`: `os.path.join` of the four placeholder components
(`\x7bplatform\x7d/\x7bname\x7d/\x7btag\x7d/\x7binst_id\x7d`). -/
def dir_format : String :=
  "\x7bplatform\x7d/\x7bname\x7d/\x7btag\x7d/\x7binst_id\x7d"

/-- The `defaults` dict literal of `Parameters.__init__`. -/
def defaults : JMap :=
  [("clean_level", .str "clean"),
   ("directory_format", .str dir_format),
   ("ignore_empty_files", .bool false),
   ("file_timeout", .num 10),
   ("update_files", .bool true),
   ("user_modules", .obj []),
   ("warn_empty_file_list", .bool false)]

/-- The `non_defaults` list of `Parameters.__init__`. -/
def non_defaults : List String := ["data_dirs"]

/-- The `ValueError` message raised by `Parameters.__setitem__` for the key
`user_modules`. -/
def userModulesMsg : String :=
  "The pysat.utils.registry submodule has methods designed to build and work with this pysat attribute. `user_modules` is not modifiable here."

/-- The `OSError` message of `Parameters._set_data_dirs` for invalid paths:
the format string applied to the failing paths joined by `": "`. -/
def dirErrMsg (bad : List String) : String :=
  "Paths " ++ String.intercalate ": " bad ++ " don\x27t lead to a valid directory."

/-- The `OSError` message of `Parameters.__init__` for a supplied path that
does not exist. -/
def pathMsg : String :=
  "Supplied path does not exist on the local system. Please create it and try again."

/-- The `RuntimeError` message of `Parameters.__init__` when no settings file
is located and `create_new` is false. -/
def locateMsg : String :=
  "pysat is unable to locate a user settings file. Please check the locations, \"./\" or \"~/.pysat\" for the file \"pysat_settings.json\"."

/-- The filesystem primitives used by `Parameters._set_data_dirs`. -/
structure FS where
  expanduser : String → String
  expandvars : String → String
  normpath : String → String
  isdir : String → Bool

/-- The per-path processing pipeline of `Parameters._set_data_dirs`:
`os.path.expanduser`, then `os.path.expandvars`, then `os.path.normpath`. -/
def process_path (fs : FS) (p : String) : String :=
  fs.normpath (fs.expandvars (fs.expanduser p))

/-- The state of one `Parameters` handle together with its backing file. -/
structure ParamState where
  data : JMap
  disk : Option JMap
  writes : Nat

/-- Application of `np.asarray(path)` and the shape-based normalization of
`Parameters._set_data_dirs`: a scalar string becomes a one-element list, a
1-D array of strings becomes the corresponding list (squeeze is the identity
on 1-D arrays).  Other JSON values are not arrays of strings and fall outside
the numpy string-path handling (`none`). -/
def jvalueToPaths : JValue → Option (List String)
  | .str s => some [s]
  | .arr l => strList l
  | _ => none
where
  strList : List JValue → Option (List String)
    | [] => some []
    | .str s :: rest => (strList rest).map (fun l => s :: l)
    | _ => none

/-- Model of `Parameters.store`: look up `self[\x27file_timeout\x27]` for the lock
timeout, acquire the write lock (the `ok` oracle), and on success serialize
the full in-memory mapping to the backing file. -/
def store (ok : Bool) (st : ParamState) : ParamState × Option PErr :=
  match jlookup st.data "file_timeout" with
  | none => (st, some (.keyError "file_timeout"))
  | some _ =>
    if ok then ({ st with disk := some st.data, writes := st.writes + 1 }, none)
    else (st, some .lockTimeout)

/-- Model of `Parameters._set_data_dirs` with `store=True` (the only way it is invoked
in this excerpt): normalize the input to a list of paths, expand and
normalize each, check every one with `os.path.isdir`; on success assign the
list to `data_dirs` and store, otherwise raise an `OSError` naming the
failing paths. -/
def set_data_dirs (fs : FS) (ok : Bool) (v : JValue) (st : ParamState) :
    ParamState × Option PErr :=
  match jvalueToPaths v with
  | none => (st, some (.valueError "unsupported data_dirs value"))
  | some ps =>
    let paths := ps.map (process_path fs)
    let bad := paths.filter (fun p => !(fs.isdir p))
    if bad.isEmpty then
      let st1 := { st with data := jinsert st.data "data_dirs" (.arr (paths.map .str)) }
      store ok st1
    else
      (st, some (.osError (dirErrMsg bad)))

/-- Model of `Parameters.__setitem__`: dispatch on the key, then store.  Note the
`data_dirs` branch stores twice: once inside `_set_data_dirs` and once at the
end of `__setitem__`.  Each `store` call performs its own lock acquisition
with an independent outcome, so each receives its own oracle: `ok1` for the
first acquisition a call attempts, `ok2` for the second (reached only on the
`data_dirs` branch, after the first store has already committed). -/
def setitem (fs : FS) (ok1 ok2 : Bool) (key : String) (v : JValue) (st : ParamState) :
    ParamState × Option PErr :=
  if key = "data_dirs" then
    match set_data_dirs fs ok1 v st with
    | (st1, some e) => (st1, some e)
    | (st1, none) => store ok2 st1
  else if key = "user_modules" then
    (st, some (.valueError userModulesMsg))
  else
    store ok1 { st with data := jinsert st.data key v }

/-- Model of `Parameters.clear_and_restart`: replace `data` with a deep copy of
`defaults`, set every `non_defaults` key to `[]`, and store. -/
def clear_and_restart (ok : Bool) (st : ParamState) : ParamState × Option PErr :=
  let d := non_defaults.foldl (fun m k => jinsert m k (.arr [])) defaults
  store ok { st with data := d }

/-- Model of `Parameters.restore_defaults`: overwrite every `defaults` key in `data`
with its default value, then store once. -/
def restore_defaults (ok : Bool) (st : ParamState) : ParamState × Option PErr :=
  let d := defaults.foldl (fun m kv => jinsert m kv.1 kv.2) st.data
  store ok { st with data := d }

/-- The filesystem environment seen by `Parameters.__init__`:
`os.path.exists`, `os.path.isfile`, `os.path.expanduser` of the home
shorthand, `os.path.isdir` (used only to state the spec claim about
directories), and the parsed JSON contents of each file (`none` when the
file is absent or does not parse). -/
structure ConstructFS where
  path_exists : String → Bool
  isfile : String → Bool
  home : String
  isdir : String → Bool
  fileContents : String → Option JMap

/-- The location searched first when no path is supplied:
`os.path.join(\x27.\x27, sfname)`. -/
def cwdLoc : String := joinPath "." sfname

/-- The location searched second: `os.path.join(expanduser(~), .pysat, sfname)`. -/
def homeLoc (cfs : ConstructFS) : String :=
  joinPath (joinPath cfs.home ".pysat") sfname

/-- The result of a successful `Parameters.__init__`. -/
structure Constructed where
  file_path : String
  state : ParamState

/-- File-location resolution in `Parameters.__init__`: an explicit path must
pass `os.path.exists`, otherwise the cwd and home locations are tried in
order with `os.path.isfile`; with no file found and `create_new` false a
`RuntimeError` is raised, and with `create_new` true `self.file_path` is left
as `None`. -/
def resolve_file_path (cfs : ConstructFS) (path : Option String)
    (create_new : Bool) : Except PErr (Option String) :=
  match path with
  | some p =>
    if !(cfs.path_exists p) then .error (.osError pathMsg)
    else .ok (some (joinPath p sfname))
  | none =>
    let fp := if cfs.isfile cwdLoc then some cwdLoc
              else if cfs.isfile (homeLoc cfs) then some (homeLoc cfs)
              else none
    if fp.isNone && !create_new then .error (.runtimeError locateMsg)
    else .ok fp

/-- Model of `Parameters.__init__`: resolve the backing file, run
`clear_and_restart` when `create_new` (note `store` is then invoked with
`self.file_path` still `None` when no file was resolved: `Lock(None, ...)`
raises a `TypeError`), and finally load the file under a read lock with the
fixed bootstrap timeout of 10 seconds. -/
def construct (cfs : ConstructFS) (ok : Bool) (path : Option String)
    (create_new : Bool) : Except PErr Constructed :=
  match resolve_file_path cfs path create_new with
  | .error e => .error e
  | .ok none => .error (.typeError "file_path is None")
  | .ok (some fp) =>
    let st0 : ParamState := { data := [], disk := cfs.fileContents fp, writes := 0 }
    let step : Except PErr ParamState :=
      if create_new then
        match clear_and_restart ok st0 with
        | (st1, none) => .ok st1
        | (_, some e) => .error e
      else .ok st0
    match step with
    | .error e => .error e
    | .ok st1 =>
      if ok then
        match st1.disk with
        | some m => .ok { file_path := fp, state := { st1 with data := m } }
        | none => .error (.jsonError fp)
      else .error .lockTimeout

/-- Run a sequence of `Set` calls, stopping at the first raised exception, as
a caller issuing `params[k] = v` one call after another would.  The oracles
are the outcomes of the (up to two) lock acquisitions of each call;
`runSets fs true true` is a run in which every attempted acquisition
succeeds. -/
def runSets (fs : FS) (ok1 ok2 : Bool) (sets : List (String × JValue))
    (st : ParamState) : ParamState × Option PErr :=
  match sets with
  | [] => (st, none)
  | (k, v) :: rest =>
    match setitem fs ok1 ok2 k v st with
    | (st1, some e) => (st1, some e)
    | (st1, none) => runSets fs ok1 ok2 rest st1

/-- The `instruments` argument of `Constellation.__init__`, abstracted to the
two facts the constructor consults: whether `hasattr(instruments,
\x27__getitem__\x27)` holds, and the elements `list(instruments)` yields. -/
structure InstArg (α : Type) where
  has_getitem : Bool
  items : List α

/-- A Python list of instruments viewed as an `InstArg`: lists support
indexing, and iterating them yields their elements. -/
def pythonList {α : Type} (l : List α) : InstArg α :=
  { has_getitem := true, items := l }

/-- Model of `Constellation.__init__`: start from the constellation module's
instruments (empty when no module is given); a non-`None` `instruments`
argument with `__getitem__` raises `ValueError`, otherwise its elements are
appended.  The result is the final `self.instruments`. -/
def constellation_init {α : Type} (constellation_module : Option (List α))
    (instruments : Option (InstArg α)) : Except PErr (List α) :=
  let base := match constellation_module with
              | some insts => insts
              | none => []
  match instruments with
  | none => .ok base
  | some a =>
    if a.has_getitem then .error (.valueError "instruments must be iterable")
    else .ok (base ++ a.items)

/-- The mapping produced by a full reinitialization: every `defaults` key with
its default value, followed by every `non_defaults` key with an empty array. -/
def resetMap : JMap :=
  [("clean_level", .str "clean"),
   ("directory_format", .str dir_format),
   ("ignore_empty_files", .bool false),
   ("file_timeout", .num 10),
   ("update_files", .bool true),
   ("user_modules", .obj []),
   ("warn_empty_file_list", .bool false),
   ("data_dirs", .arr [])]

/-- A concrete filesystem for witnesses: expansion functions are the identity
and exactly the directories `/data/a` and `/data/b` exist. -/
def fs0 : FS :=
  { expanduser := id, expandvars := id, normpath := id,
    isdir := fun p => p == "/data/a" || p == "/data/b" }

/-- A concrete store state holding only `file_timeout`, in sync with its file. -/
def stFT : ParamState :=
  { data := [("file_timeout", .num 10)],
    disk := some [("file_timeout", .num 10)], writes := 0 }

/-- A concrete store state in sync with its file, whose mapping is the reset
mapping. -/
def stReset : ParamState :=
  { data := resetMap, disk := some resetMap, writes := 1 }

/-- The state after `Set("user_key", 42)` on `stReset`. -/
def stUser : ParamState := (setitem fs0 true true "user_key" (.num 42) stReset).1

/-- A concrete construction filesystem where only the directory `/opt/pysat`
exists and no settings file is present anywhere. -/
def cfs1 : ConstructFS :=
  { path_exists := fun p => p == "/opt/pysat",
    isfile := fun _ => false,
    home := "/home/user",
    isdir := fun p => p == "/opt/pysat",
    fileContents := fun _ => none }

/-- A concrete construction filesystem with a settings file both in the
current working directory and in the home configuration directory, holding
different mappings. -/
def cfsBoth : ConstructFS :=
  { path_exists := fun _ => false,
    isfile := fun p => p == cwdLoc || p == joinPath (joinPath "/home/user" ".pysat") sfname,
    home := "/home/user",
    isdir := fun _ => false,
    fileContents := fun p =>
      if p == cwdLoc then some [("file_timeout", .num 5)]
      else if p == joinPath (joinPath "/home/user" ".pysat") sfname then
        some [("file_timeout", .num 6)]
      else none }

/-- A concrete construction filesystem with no settings file anywhere. -/
def cfsNone : ConstructFS :=
  { path_exists := fun _ => false,
    isfile := fun _ => false,
    home := "/home/user",
    isdir := fun _ => false,
    fileContents := fun _ => none }

/-- A concrete construction filesystem where `/tmp/afile` is an existing
regular file (it passes `os.path.exists` but is not a directory) and
`/opt/conf` is an existing directory holding a settings file. -/
def cfsFile : ConstructFS :=
  { path_exists := fun p => p == "/tmp/afile" || p == "/opt/conf",
    isfile := fun p => p == "/tmp/afile",
    home := "/home/user",
    isdir := fun p => p == "/opt/conf",
    fileContents := fun p =>
      if p == joinPath "/opt/conf" sfname then some [("file_timeout", .num 10)]
      else none }

/-- A concrete construction filesystem whose settings file under `/opt/conf`
holds exactly what `runSets fs0 true true [("custom", 7)] stFT` leaves on disk. -/
def cfsRT : ConstructFS :=
  { path_exists := fun p => p == "/opt/conf",
    isfile := fun _ => false,
    home := "/home/user",
    isdir := fun _ => false,
    fileContents := fun p =>
      if p == joinPath "/opt/conf" sfname then
        some [("file_timeout", .num 10), ("custom", .num 7)]
      else none }

theorem jlookup_jinsert_self (m : JMap) (k : String) (v : JValue) :
    jlookup (jinsert m k v) k = some v := by
  induction m with
  | nil => simp [jinsert, jlookup]
  | cons hd tl ih =>
    obtain ⟨k1, v1⟩ := hd
    by_cases h : k1 = k <;> simp [jinsert, jlookup, h, ih]

theorem jlookup_jinsert_ne (m : JMap) (k k1 : String) (v : JValue)
    (h : k1 ≠ k) : jlookup (jinsert m k v) k1 = jlookup m k1 := by
  induction m with
  | nil => simp [jinsert, jlookup, Ne.symm h]
  | cons hd tl ih =>
    obtain ⟨k2, v2⟩ := hd
    by_cases h2 : k2 = k
    · subst h2
      simp [jinsert, jlookup, Ne.symm h, h]
    · simp [jinsert, jlookup, h2, ih]

/-- C3: for every value and every store state (and every filesystem and lock
outcome), `Set("user_modules", v)` raises the descriptive
"not modifiable here" `ValueError` and returns with the state — in-memory
mapping, on-disk contents, and write count — exactly as it was. -/
theorem setitem_user_modules_protected (fs : FS) (ok1 ok2 : Bool) (v : JValue)
    (st : ParamState) :
    setitem fs ok1 ok2 "user_modules" v st = (st, some (.valueError userModulesMsg)) := by
  simp [setitem]

/-- C10: a non-`None` `instruments` argument that supports indexing — in
particular every Python list of instruments — makes `Constellation.__init__`
raise `ValueError \x27instruments must be iterable\x27`; a non-indexable
iterable is accepted and its elements are appended to the module-provided
instrument list. -/
theorem constellation_init_rejects_indexable {α : Type}
    (cm : Option (List α)) (a : InstArg α) :
    (a.has_getitem = true →
      constellation_init cm (some a) =
        .error (.valueError "instruments must be iterable")) ∧
    (∀ l : List α, constellation_init cm (some (pythonList l)) =
      .error (.valueError "instruments must be iterable")) ∧
    (a.has_getitem = false →
      ∃ base, constellation_init cm none = .ok base ∧
        constellation_init cm (some a) = .ok (base ++ a.items)) := by
  refine ⟨fun h => ?_, fun l => ?_, fun h => ?_⟩
  · cases cm <;> simp [constellation_init, h]
  · cases cm <;> simp [constellation_init, pythonList]
  · cases cm <;> exact ⟨_, rfl, by simp [constellation_init, h]⟩

/-- Witness for C10 at concrete inputs: a Python list of instruments is
rejected, while a non-indexable iterable is appended after the module list. -/
theorem constellation_init_rejects_indexable_witness :
    constellation_init (some [1]) (some (pythonList [2, 3])) =
      .error (.valueError "instruments must be iterable") ∧
    (∃ base, constellation_init (some [1]) none = .ok base ∧
      constellation_init (some [1]) (some (InstArg.mk false [2, 3])) =
        .ok (base ++ [2, 3])) :=
  ⟨(constellation_init_rejects_indexable (some [1]) (pythonList [2, 3])).2.1 [2, 3],
   (constellation_init_rejects_indexable (some [1]) (InstArg.mk false [2, 3])).2.2 rfl⟩

/-- C5: after a full reinitialization — `clear_and_restart`, or construction
with `create_new = true` at a resolved explicit location — the mapping is
exactly every `defaults` key with its default value plus every
`non_defaults` key with an empty sequence (in particular `clean_level` maps
to `"clean"` and `data_dirs` to `[]`), and the backing file is freshly
written with that mapping. -/
theorem full_reset_contents (st : ParamState) (cfs : ConstructFS) (p : String) :
    (clear_and_restart true st =
      ({ st with data := resetMap, disk := some resetMap,
                 writes := st.writes + 1 }, none)) ∧
    jlookup resetMap "clean_level" = some (.str "clean") ∧
    jlookup resetMap "data_dirs" = some (.arr []) ∧
    (cfs.path_exists p = true →
      construct cfs true (some p) true =
        .ok { file_path := joinPath p sfname,
              state := { data := resetMap, disk := some resetMap, writes := 1 } }) := by
  have hcr : ∀ s : ParamState, clear_and_restart true s =
      ({ s with data := resetMap, disk := some resetMap,
                writes := s.writes + 1 }, none) := by
    intro s
    rfl
  refine ⟨hcr st, rfl, rfl, fun h => ?_⟩
  have hr : resolve_file_path cfs (some p) true = .ok (some (joinPath p sfname)) := by
    simp [resolve_file_path, h]
  simp [construct, hr, hcr]

/-- Witness for C5: constructing with `create_new` at the concrete existing
directory `/opt/pysat` yields the reset mapping, freshly written. -/
theorem full_reset_contents_witness :
    cfs1.path_exists "/opt/pysat" = true ∧
    construct cfs1 true (some "/opt/pysat") true =
      .ok { file_path := joinPath "/opt/pysat" sfname,
            state := { data := resetMap, disk := some resetMap, writes := 1 } } :=
  ⟨rfl, (full_reset_contents stFT cfs1 "/opt/pysat").2.2.2 rfl⟩

theorem store_success (st : ParamState) (v : JValue)
    (h : jlookup st.data "file_timeout" = some v) :
    store true st = ({ st with disk := some st.data, writes := st.writes + 1 }, none) := by
  unfold store
  rw [h]
  rfl

theorem restore_defaults_chain (st : ParamState) :
    defaults.foldl (fun m kv => jinsert m kv.1 kv.2) st.data =
      jinsert (jinsert (jinsert (jinsert (jinsert (jinsert (jinsert st.data
        "clean_level" (.str "clean"))
        "directory_format" (.str dir_format))
        "ignore_empty_files" (.bool false))
        "file_timeout" (.num 10))
        "update_files" (.bool true))
        "user_modules" (.obj []))
        "warn_empty_file_list" (.bool false) := rfl

/-- C6: `RestoreDefaults` succeeds, persists exactly once (one completed
store, with the file then holding the in-memory mapping), overwrites every
`defaults` key with its table value, and leaves every key outside `defaults`
— `data_dirs` and user-added keys alike — unchanged in memory. -/
theorem restore_defaults_frame (st : ParamState) :
    (restore_defaults true st).2 = none ∧
    (restore_defaults true st).1.writes = st.writes + 1 ∧
    (restore_defaults true st).1.disk = some ((restore_defaults true st).1.data) ∧
    (∀ k, jlookup defaults k = none →
      jlookup (restore_defaults true st).1.data k = jlookup st.data k) ∧
    jlookup (restore_defaults true st).1.data "clean_level" = some (.str "clean") ∧
    jlookup (restore_defaults true st).1.data "directory_format" = some (.str dir_format) ∧
    jlookup (restore_defaults true st).1.data "ignore_empty_files" = some (.bool false) ∧
    jlookup (restore_defaults true st).1.data "file_timeout" = some (.num 10) ∧
    jlookup (restore_defaults true st).1.data "update_files" = some (.bool true) ∧
    jlookup (restore_defaults true st).1.data "user_modules" = some (.obj []) ∧
    jlookup (restore_defaults true st).1.data "warn_empty_file_list" = some (.bool false) := by
  have hft : ∀ m : JMap,
      jlookup (defaults.foldl (fun m kv => jinsert m kv.1 kv.2) m) "file_timeout" =
        some (.num 10) := by
    intro m
    rw [show m = (ParamState.mk m none 0).data from rfl, restore_defaults_chain]
    rw [jlookup_jinsert_ne _ _ _ _ (by decide), jlookup_jinsert_ne _ _ _ _ (by decide),
      jlookup_jinsert_ne _ _ _ _ (by decide), jlookup_jinsert_self]
  have hr : restore_defaults true st =
      ({ st with
            data := defaults.foldl (fun m kv => jinsert m kv.1 kv.2) st.data,
            disk := some (defaults.foldl (fun m kv => jinsert m kv.1 kv.2) st.data),
            writes := st.writes + 1 }, none) := by
    unfold restore_defaults
    rw [store_success _ _ (hft st.data)]
  rw [hr]
  refine ⟨rfl, rfl, rfl, fun k hk => ?_, ?_, ?_, ?_, ?_, ?_, ?_, ?_⟩
  · simp only [defaults, jlookup, dir_format] at hk
    split_ifs at hk with h1 h2 h3 h4 h5 h6 h7
    simp only [restore_defaults_chain]
    rw [jlookup_jinsert_ne _ _ _ _ (Ne.symm h7), jlookup_jinsert_ne _ _ _ _ (Ne.symm h6),
      jlookup_jinsert_ne _ _ _ _ (Ne.symm h5), jlookup_jinsert_ne _ _ _ _ (Ne.symm h4),
      jlookup_jinsert_ne _ _ _ _ (Ne.symm h3), jlookup_jinsert_ne _ _ _ _ (Ne.symm h2),
      jlookup_jinsert_ne _ _ _ _ (Ne.symm h1)]
  · simp only [restore_defaults_chain]
    rw [jlookup_jinsert_ne _ _ _ _ (by decide), jlookup_jinsert_ne _ _ _ _ (by decide),
      jlookup_jinsert_ne _ _ _ _ (by decide), jlookup_jinsert_ne _ _ _ _ (by decide),
      jlookup_jinsert_ne _ _ _ _ (by decide), jlookup_jinsert_ne _ _ _ _ (by decide),
      jlookup_jinsert_self]
  · simp only [restore_defaults_chain]
    rw [jlookup_jinsert_ne _ _ _ _ (by decide), jlookup_jinsert_ne _ _ _ _ (by decide),
      jlookup_jinsert_ne _ _ _ _ (by decide), jlookup_jinsert_ne _ _ _ _ (by decide),
      jlookup_jinsert_ne _ _ _ _ (by decide), jlookup_jinsert_self]
  · simp only [restore_defaults_chain]
    rw [jlookup_jinsert_ne _ _ _ _ (by decide), jlookup_jinsert_ne _ _ _ _ (by decide),
      jlookup_jinsert_ne _ _ _ _ (by decide), jlookup_jinsert_ne _ _ _ _ (by decide),
      jlookup_jinsert_self]
  · simp only [restore_defaults_chain]
    rw [jlookup_jinsert_ne _ _ _ _ (by decide), jlookup_jinsert_ne _ _ _ _ (by decide),
      jlookup_jinsert_ne _ _ _ _ (by decide), jlookup_jinsert_self]
  · simp only [restore_defaults_chain]
    rw [jlookup_jinsert_ne _ _ _ _ (by decide), jlookup_jinsert_ne _ _ _ _ (by decide),
      jlookup_jinsert_self]
  · simp only [restore_defaults_chain]
    rw [jlookup_jinsert_ne _ _ _ _ (by decide), jlookup_jinsert_self]
  · simp only [restore_defaults_chain]
    rw [jlookup_jinsert_self]

/-- Witness for C6 at a concrete input: after `Set("user_key", 42)` on the
reset state, `RestoreDefaults` keeps `user_key` at `42`. -/
theorem restore_defaults_frame_witness :
    jlookup stUser.data "user_key" = some (.num 42) ∧
    jlookup defaults "user_key" = none ∧
    jlookup (restore_defaults true stUser).1.data "user_key" = some (.num 42) := by
  refine ⟨rfl, rfl, ?_⟩
  have h := (restore_defaults_frame stUser).2.2.2.1 "user_key" rfl
  rw [h]
  rfl

theorem strList_map_str (ps : List String) :
    jvalueToPaths.strList (ps.map .str) = some ps := by
  induction ps with
  | nil => rfl
  | cons h t ih => simp [jvalueToPaths.strList, ih]

theorem filter_not_isEmpty_eq_all (l : List String) (f : String → Bool) :
    (l.filter (fun p => !(f p))).isEmpty = l.all f := by
  induction l with
  | nil => rfl
  | cons h t ih => by_cases hf : f h <;> simp [List.filter, hf, ih]

/-- C2: `Set("data_dirs", batch)` is all-or-nothing.  Each supplied path is
user-expanded, variable-expanded and normalized (`process_path`); when every
resulting path is an existing directory the full `data_dirs` array is
replaced with the normalized list and persisted, and when any path fails an
`OSError` naming the failing paths is raised with memory and disk unchanged.
A scalar input behaves as the one-element batch. -/
theorem set_data_dirs_all_or_nothing (fs : FS) (st : ParamState)
    (ps : List String) (s : String) (tv : JValue)
    (htv : jlookup st.data "file_timeout" = some tv) :
    ((ps.map (process_path fs)).all fs.isdir = true →
      setitem fs true true "data_dirs" (.arr (ps.map .str)) st =
        ({ st with
              data := jinsert st.data "data_dirs"
                (.arr ((ps.map (process_path fs)).map .str)),
              disk := some (jinsert st.data "data_dirs"
                (.arr ((ps.map (process_path fs)).map .str))),
              writes := st.writes + 2 }, none)) ∧
    ((ps.map (process_path fs)).all fs.isdir = false →
      setitem fs true true "data_dirs" (.arr (ps.map .str)) st =
        (st, some (.osError (dirErrMsg
          ((ps.map (process_path fs)).filter (fun p => !(fs.isdir p))))))) ∧
    (∀ ok1 ok2 : Bool, setitem fs ok1 ok2 "data_dirs" (.str s) st =
      setitem fs ok1 ok2 "data_dirs" (.arr [.str s]) st) := by
  have hpaths : jvalueToPaths (.arr (ps.map .str)) = some ps := strList_map_str ps
  have hft : jlookup (jinsert st.data "data_dirs"
      (.arr ((ps.map (process_path fs)).map .str))) "file_timeout" = some tv := by
    rw [jlookup_jinsert_ne _ _ _ _ (by decide), htv]
  refine ⟨fun hall => ?_, fun hall => ?_, fun ok1 ok2 => rfl⟩
  · have hsdd : set_data_dirs fs true (.arr (ps.map .str)) st =
        ({ st with
              data := jinsert st.data "data_dirs"
                (.arr ((ps.map (process_path fs)).map .str)),
              disk := some (jinsert st.data "data_dirs"
                (.arr ((ps.map (process_path fs)).map .str))),
              writes := st.writes + 1 }, none) := by
      unfold set_data_dirs
      rw [hpaths]
      simp only [filter_not_isEmpty_eq_all, hall, if_true]
      exact store_success _ _ hft
    have houter := store_success
      ({ st with
            data := jinsert st.data "data_dirs"
              (.arr ((ps.map (process_path fs)).map .str)),
            disk := some (jinsert st.data "data_dirs"
              (.arr ((ps.map (process_path fs)).map .str))),
            writes := st.writes + 1 }) tv hft
    simp only [setitem, if_true]
    rw [hsdd]
    simpa using houter
  · have hsdd : set_data_dirs fs true (.arr (ps.map .str)) st =
        (st, some (.osError (dirErrMsg
          ((ps.map (process_path fs)).filter (fun p => !(fs.isdir p)))))) := by
      unfold set_data_dirs
      rw [hpaths]
      simp only [filter_not_isEmpty_eq_all, hall]
      simp
    simp only [setitem, if_true]
    rw [hsdd]

/-- Witness for C2 at concrete inputs: on `fs0` the batch
`["/data/a", "/data/b"]` is accepted wholesale, and the batch
`["/data/a", "/nope"]` is rejected with the state untouched. -/
theorem set_data_dirs_all_or_nothing_witness :
    jlookup stFT.data "file_timeout" = some (.num 10) ∧
    (["/data/a", "/data/b"].map (process_path fs0)).all fs0.isdir = true ∧
    setitem fs0 true true "data_dirs" (.arr (["/data/a", "/data/b"].map .str)) stFT =
      ({ stFT with
            data := jinsert stFT.data "data_dirs"
              (.arr ((["/data/a", "/data/b"].map (process_path fs0)).map .str)),
            disk := some (jinsert stFT.data "data_dirs"
              (.arr ((["/data/a", "/data/b"].map (process_path fs0)).map .str))),
            writes := stFT.writes + 2 }, none) ∧
    (["/data/a", "/nope"].map (process_path fs0)).all fs0.isdir = false ∧
    setitem fs0 true true "data_dirs" (.arr (["/data/a", "/nope"].map .str)) stFT =
      (stFT, some (.osError (dirErrMsg
        ((["/data/a", "/nope"].map (process_path fs0)).filter
          (fun p => !(fs0.isdir p)))))) :=
  ⟨rfl, rfl,
   (set_data_dirs_all_or_nothing fs0 stFT ["/data/a", "/data/b"] "" (.num 10) rfl).1 rfl,
   rfl,
   (set_data_dirs_all_or_nothing fs0 stFT ["/data/a", "/nope"] "" (.num 10) rfl).2.1 rfl⟩

theorem store_spec (ok : Bool) (st : ParamState) :
    (ok = true ∧ (jlookup st.data "file_timeout").isSome = true ∧
      store ok st = ({ st with disk := some st.data, writes := st.writes + 1 }, none)) ∨
    ((store ok st).1 = st ∧ (store ok st).2.isSome = true ∧
      ∀ m1 m2, (store ok st).2 ≠ some (.osError m1) ∧
        (store ok st).2 ≠ some (.valueError m2)) := by
  unfold store
  cases hj : jlookup st.data "file_timeout" with
  | none => right; simp
  | some v =>
    cases ok with
    | true => left; simp
    | false => right; simp

theorem store_no_fail (st : ParamState)
    (h : (jlookup st.data "file_timeout").isSome = true) :
    (store true st).2 = none := by
  unfold store
  cases hj : jlookup st.data "file_timeout" with
  | none => rw [hj] at h; simp at h
  | some v => simp

theorem set_data_dirs_spec (fs : FS) (ok : Bool) (v : JValue) (st : ParamState) :
    ((set_data_dirs fs ok v st).2 = none ∧ ok = true ∧
      (jlookup (set_data_dirs fs ok v st).1.data "file_timeout").isSome = true ∧
      (set_data_dirs fs ok v st).1.disk = some ((set_data_dirs fs ok v st).1.data) ∧
      (set_data_dirs fs ok v st).1.writes = st.writes + 1) ∨
    ((set_data_dirs fs ok v st).2.isSome = true ∧
      (set_data_dirs fs ok v st).1.disk = st.disk ∧
      (set_data_dirs fs ok v st).1.writes = st.writes ∧
      (∀ m, (set_data_dirs fs ok v st).2 = some (.osError m) →
        (set_data_dirs fs ok v st).1 = st) ∧
      (∀ m, (set_data_dirs fs ok v st).2 = some (.valueError m) →
        (set_data_dirs fs ok v st).1 = st)) := by
  unfold set_data_dirs
  cases hv : jvalueToPaths v with
  | none => right; simp
  | some ps =>
    dsimp only
    split
    · rcases store_spec ok { st with data := jinsert st.data "data_dirs" (.arr ((ps.map (process_path fs)).map .str)) } with hsp | hsp
      · left
        rw [hsp.2.2]
        exact ⟨rfl, hsp.1, hsp.2.1, rfl, rfl⟩
      · right
        rw [hsp.1]
        refine ⟨hsp.2.1, rfl, rfl, fun m hm => ?_, fun m hm => ?_⟩
        · exact absurd hm (hsp.2.2 m m).1
        · exact absurd hm (hsp.2.2 m m).2
    · right
      refine ⟨rfl, rfl, rfl, fun m hm => rfl, fun m hm => ?_⟩
      simp at hm

/-- C4 as amended: a `Set` failure during validation — an invalid
`data_dirs` batch (`OSError`), an unsupported `data_dirs` value, or the
protected `user_modules` key (`ValueError`) — leaves the whole prior state,
memory and disk alike, intact.  Serialization failures are not atomic: for a
general key a failing call (lock timeout, or missing `file_timeout`) leaves
the prior on-disk contents and write count intact while the in-memory
mapping already holds the new value; for `data_dirs`, which stores twice, a
failing call either left disk and write count untouched (the first store
failed) or had already committed the new mapping to disk with one completed
write before the second lock acquisition timed out — on that path the prior
on-disk contents are overwritten. -/
theorem setitem_failure_frame (fs : FS) (ok1 ok2 : Bool) (k : String)
    (v : JValue) (st : ParamState) :
    (∀ m, (setitem fs ok1 ok2 k v st).2 = some (.osError m) →
      (setitem fs ok1 ok2 k v st).1 = st) ∧
    (∀ m, (setitem fs ok1 ok2 k v st).2 = some (.valueError m) →
      (setitem fs ok1 ok2 k v st).1 = st) ∧
    (k ≠ "data_dirs" → k ≠ "user_modules" →
      (setitem fs ok1 ok2 k v st).2.isSome = true →
      (setitem fs ok1 ok2 k v st).1.data = jinsert st.data k v ∧
      (setitem fs ok1 ok2 k v st).1.disk = st.disk ∧
      (setitem fs ok1 ok2 k v st).1.writes = st.writes) ∧
    ((setitem fs ok1 ok2 "data_dirs" v st).2.isSome = true →
      ((setitem fs ok1 ok2 "data_dirs" v st).1.disk = st.disk ∧
        (setitem fs ok1 ok2 "data_dirs" v st).1.writes = st.writes) ∨
      ((setitem fs ok1 ok2 "data_dirs" v st).1.disk =
          some ((setitem fs ok1 ok2 "data_dirs" v st).1.data) ∧
        (setitem fs ok1 ok2 "data_dirs" v st).1.writes = st.writes + 1)) := by
  have hbr : setitem fs ok1 ok2 "data_dirs" v st =
      (match set_data_dirs fs ok1 v st with
        | (st1, some e) => (st1, some e)
        | (st1, none) => store ok2 st1) := by
    simp [setitem]
  have hdd : (∀ m, (setitem fs ok1 ok2 "data_dirs" v st).2 = some (.osError m) →
      (setitem fs ok1 ok2 "data_dirs" v st).1 = st) ∧
      (∀ m, (setitem fs ok1 ok2 "data_dirs" v st).2 = some (.valueError m) →
        (setitem fs ok1 ok2 "data_dirs" v st).1 = st) ∧
      ((setitem fs ok1 ok2 "data_dirs" v st).2.isSome = true →
        ((setitem fs ok1 ok2 "data_dirs" v st).1.disk = st.disk ∧
          (setitem fs ok1 ok2 "data_dirs" v st).1.writes = st.writes) ∨
        ((setitem fs ok1 ok2 "data_dirs" v st).1.disk =
            some ((setitem fs ok1 ok2 "data_dirs" v st).1.data) ∧
          (setitem fs ok1 ok2 "data_dirs" v st).1.writes = st.writes + 1)) := by
    rw [hbr]
    rcases set_data_dirs_spec fs ok1 v st with hsp | hsp
    · cases hpair : set_data_dirs fs ok1 v st with
      | mk st1 e =>
        rw [hpair] at hsp
        obtain ⟨he, hok, hft, hdisk, hwr⟩ := hsp
        simp only at he hft hdisk hwr
        subst he
        subst hok
        simp only
        rcases store_spec ok2 st1 with hsp2 | hsp2
        · rw [hsp2.2.2]
          exact ⟨fun m hm => by simp at hm, fun m hm => by simp at hm,
            fun hfail => by simp at hfail⟩
        · rw [hsp2.1]
          exact ⟨fun m hm => absurd hm (hsp2.2.2 m m).1,
            fun m hm => absurd hm (hsp2.2.2 m m).2,
            fun hfail => Or.inr ⟨hdisk, hwr⟩⟩
    · cases hpair : set_data_dirs fs ok1 v st with
      | mk st1 e =>
        rw [hpair] at hsp
        obtain ⟨hfail1, hdisk, hwr, hos, hval⟩ := hsp
        cases e with
        | none => simp at hfail1
        | some e1 =>
          simp only at hdisk hwr
          simp only
          exact ⟨fun m hm => hos m hm, fun m hm => hval m hm,
            fun hfail => Or.inl ⟨hdisk, hwr⟩⟩
  by_cases hk1 : k = "data_dirs"
  · subst hk1
    exact ⟨hdd.1, hdd.2.1, fun h1 => absurd rfl h1, hdd.2.2⟩
  · by_cases hk2 : k = "user_modules"
    · subst hk2
      have hum : setitem fs ok1 ok2 "user_modules" v st =
          (st, some (.valueError userModulesMsg)) := by
        simp [setitem]
      refine ⟨fun m hm => ?_, fun m hm => by rw [hum], fun h1 h2 => absurd rfl h2,
        hdd.2.2⟩
      rw [hum] at hm
      simp at hm
    · have hgen : setitem fs ok1 ok2 k v st =
          store ok1 { st with data := jinsert st.data k v } := by
        simp [setitem, hk1, hk2]
      rcases store_spec ok1 { st with data := jinsert st.data k v } with hsp | hsp
      · refine ⟨fun m hm => ?_, fun m hm => ?_, fun h1 h2 h3 => ?_, hdd.2.2⟩
        · rw [hgen, hsp.2.2] at hm
          simp at hm
        · rw [hgen, hsp.2.2] at hm
          simp at hm
        · rw [hgen, hsp.2.2] at h3
          simp at h3
      · refine ⟨fun m hm => ?_, fun m hm => ?_, fun h1 h2 h3 => ?_, hdd.2.2⟩
        · rw [hgen] at hm
          exact absurd hm (hsp.2.2 m m).1
        · rw [hgen] at hm
          exact absurd hm (hsp.2.2 m m).2
        · rw [hgen, hsp.1]
          exact ⟨rfl, rfl, rfl⟩

/-- Counterexample to C4 as stated, at two concrete inputs.  A general-key
`Set` that fails on the lock leaves the new value in memory, so the prior
in-memory mapping does not survive every failure.  A `data_dirs` `Set` whose
first store commits and whose second lock acquisition then times out fails
while the file already holds the new mapping (`data_dirs` present on disk,
absent from the prior disk contents), so the prior on-disk contents do not
survive every failure either. -/
theorem setitem_failure_mutates_memory :
    ((setitem fs0 false false "custom" (.num 1) stFT).2 = some .lockTimeout ∧
      jlookup stFT.data "custom" = none ∧
      jlookup (setitem fs0 false false "custom" (.num 1) stFT).1.data "custom" =
        some (.num 1)) ∧
    ((setitem fs0 true false "data_dirs" (.arr [.str "/data/a"]) stFT).2 =
        some .lockTimeout ∧
      stFT.disk = some stFT.data ∧
      jlookup stFT.data "data_dirs" = none ∧
      (setitem fs0 true false "data_dirs" (.arr [.str "/data/a"]) stFT).1.disk =
        some ((setitem fs0 true false "data_dirs" (.arr [.str "/data/a"]) stFT).1.data) ∧
      jlookup (setitem fs0 true false "data_dirs" (.arr [.str "/data/a"]) stFT).1.data
        "data_dirs" = some (.arr [.str "/data/a"])) :=
  ⟨⟨rfl, rfl, rfl⟩, ⟨rfl, rfl, rfl, rfl, rfl⟩⟩

/-- Witness for the amended C4 at concrete inputs: a protected-key write
leaves the state untouched; a failing general-key write leaves disk and
write count intact with the new value already in memory; a failing
`data_dirs` write falls under the two-outcome disjunction. -/
theorem setitem_failure_frame_witness :
    (setitem fs0 true true "user_modules" (.num 1) stFT).1 = stFT ∧
    ((setitem fs0 false false "custom" (.num 1) stFT).1.data =
        jinsert stFT.data "custom" (.num 1) ∧
      (setitem fs0 false false "custom" (.num 1) stFT).1.disk = stFT.disk ∧
      (setitem fs0 false false "custom" (.num 1) stFT).1.writes = stFT.writes) ∧
    (((setitem fs0 true false "data_dirs" (.arr [.str "/data/a"]) stFT).1.disk =
          stFT.disk ∧
        (setitem fs0 true false "data_dirs" (.arr [.str "/data/a"]) stFT).1.writes =
          stFT.writes) ∨
      ((setitem fs0 true false "data_dirs" (.arr [.str "/data/a"]) stFT).1.disk =
          some ((setitem fs0 true false "data_dirs" (.arr [.str "/data/a"]) stFT).1.data) ∧
        (setitem fs0 true false "data_dirs" (.arr [.str "/data/a"]) stFT).1.writes =
          stFT.writes + 1)) :=
  ⟨(setitem_failure_frame fs0 true true "user_modules" (.num 1) stFT).2.1
      userModulesMsg rfl,
   (setitem_failure_frame fs0 false false "custom" (.num 1) stFT).2.2.1
      (by decide) (by decide) rfl,
   (setitem_failure_frame fs0 true false "data_dirs" (.arr [.str "/data/a"]) stFT).2.2.2
      rfl⟩

/-- C7: construction without an explicit path searches the current working
directory and then the `~/.pysat` configuration directory for the fixed
settings filename and loads the first existing file (the cwd file wins when
both exist, since the home location is not even consulted); when neither
location has the file and `create_new` is false it fails with the
"unable to locate a user settings file" error naming the searched
locations. -/
theorem construct_discovery (cfs : ConstructFS) :
    (∀ m, cfs.isfile cwdLoc = true → cfs.fileContents cwdLoc = some m →
      construct cfs true none false =
        .ok { file_path := cwdLoc,
              state := { data := m, disk := some m, writes := 0 } }) ∧
    (∀ m, cfs.isfile cwdLoc = false → cfs.isfile (homeLoc cfs) = true →
      cfs.fileContents (homeLoc cfs) = some m →
      construct cfs true none false =
        .ok { file_path := homeLoc cfs,
              state := { data := m, disk := some m, writes := 0 } }) ∧
    (cfs.isfile cwdLoc = false → cfs.isfile (homeLoc cfs) = false →
      construct cfs true none false = .error (.runtimeError locateMsg)) := by
  refine ⟨fun m h1 h2 => ?_, fun m h1 h2 h3 => ?_, fun h1 h2 => ?_⟩
  · have hr : resolve_file_path cfs none false = .ok (some cwdLoc) := by
      simp [resolve_file_path, h1]
    simp [construct, hr, h2]
  · have hr : resolve_file_path cfs none false = .ok (some (homeLoc cfs)) := by
      simp [resolve_file_path, h1, h2]
    simp [construct, hr, h3]
  · have hr : resolve_file_path cfs none false = .error (.runtimeError locateMsg) := by
      simp [resolve_file_path, h1, h2]
    simp [construct, hr]

/-- Witness for C7: with settings files in both searched locations the cwd
file is the one loaded, and with no file anywhere construction fails with
the locate error. -/
theorem construct_discovery_witness :
    cfsBoth.isfile cwdLoc = true ∧
    cfsBoth.isfile (homeLoc cfsBoth) = true ∧
    construct cfsBoth true none false =
      .ok { file_path := cwdLoc,
            state := { data := [("file_timeout", .num 5)],
                       disk := some [("file_timeout", .num 5)], writes := 0 } } ∧
    construct cfsNone true none false = .error (.runtimeError locateMsg) :=
  ⟨rfl, rfl,
   (construct_discovery cfsBoth).1 [("file_timeout", .num 5)] rfl rfl,
   (construct_discovery cfsNone).2.2 rfl rfl⟩

/-- Counterexample to C8 as stated: the code checks the explicit path only
with `os.path.exists`, not `os.path.isdir`.  On a concrete filesystem where
`/tmp/afile` is an existing regular file (not a directory), construction
passes the verification step and fails only later, while loading
`/tmp/afile/pysat_settings.json` — it does not fail with the
"path not found" `OSError` the claim requires. -/
theorem construct_accepts_file_path :
    cfsFile.path_exists "/tmp/afile" = true ∧
    cfsFile.isdir "/tmp/afile" = false ∧
    construct cfsFile true (some "/tmp/afile") false =
      .error (.jsonError (joinPath "/tmp/afile" sfname)) ∧
    construct cfsFile true (some "/tmp/afile") false ≠
      .error (.osError pathMsg) := by
  refine ⟨rfl, rfl, rfl, ?_⟩
  intro h
  rw [show construct cfsFile true (some "/tmp/afile") false =
    .error (.jsonError (joinPath "/tmp/afile" sfname)) from rfl] at h
  simp at h

/-- C8 as amended: construction with an explicit path verifies only that the
path exists on the filesystem (`os.path.exists`, which a regular file also
passes), failing with the "path does not exist" `OSError` otherwise; when
the check passes the backing file is the fixed settings filename joined
under the supplied path. -/
theorem construct_explicit_path (cfs : ConstructFS) (ok : Bool) (p : String)
    (cn : Bool) :
    (cfs.path_exists p = false →
      construct cfs ok (some p) cn = .error (.osError pathMsg)) ∧
    (cfs.path_exists p = true →
      resolve_file_path cfs (some p) cn = .ok (some (joinPath p sfname))) ∧
    (∀ c, construct cfs ok (some p) cn = .ok c →
      c.file_path = joinPath p sfname) := by
  refine ⟨fun h => ?_, fun h => ?_, fun c hc => ?_⟩
  · have hr : resolve_file_path cfs (some p) cn = .error (.osError pathMsg) := by
      simp [resolve_file_path, h]
    simp [construct, hr]
  · simp [resolve_file_path, h]
  · by_cases h : cfs.path_exists p
    · have hr : resolve_file_path cfs (some p) cn = .ok (some (joinPath p sfname)) := by
        simp [resolve_file_path, h]
      unfold construct at hc
      rw [hr] at hc
      cases ok with
      | false =>
        cases cn with
        | false => simp at hc
        | true =>
          simp [clear_and_restart, store, non_defaults, defaults, jinsert, jlookup] at hc
      | true =>
        cases cn with
        | false =>
          cases hd : cfs.fileContents (joinPath p sfname) with
          | none => simp [hd] at hc
          | some m =>
            simp [hd] at hc
            rw [← hc]
        | true =>
          simp [clear_and_restart, store, non_defaults, defaults, jinsert, jlookup] at hc
          rw [← hc]
    · have hr : resolve_file_path cfs (some p) cn = .error (.osError pathMsg) := by
        simp [resolve_file_path, Bool.of_not_eq_true h]
      unfold construct at hc
      rw [hr] at hc
      simp at hc

/-- Witness for the amended C8: a missing path is rejected with the
"path does not exist" error, and a successful construction at the existing
directory `/opt/conf` uses `/opt/conf/pysat_settings.json` as its backing
file. -/
theorem construct_explicit_path_witness :
    cfsFile.path_exists "/nope" = false ∧
    construct cfsFile true (some "/nope") false = .error (.osError pathMsg) ∧
    (Constructed.mk (joinPath "/opt/conf" sfname)
      { data := [("file_timeout", .num 10)],
        disk := some [("file_timeout", .num 10)], writes := 0 }).file_path =
      joinPath "/opt/conf" sfname :=
  ⟨rfl,
   (construct_explicit_path cfsFile true "/nope" false).1 rfl,
   (construct_explicit_path cfsFile true "/opt/conf" false).2.2
     (Constructed.mk (joinPath "/opt/conf" sfname)
       { data := [("file_timeout", .num 10)],
         disk := some [("file_timeout", .num 10)], writes := 0 }) rfl⟩

theorem setitem_sync (fs : FS) (ok1 ok2 : Bool) (k : String) (v : JValue)
    (st : ParamState) (h : (setitem fs ok1 ok2 k v st).2 = none) :
    (setitem fs ok1 ok2 k v st).1.disk = some ((setitem fs ok1 ok2 k v st).1.data) := by
  by_cases hk1 : k = "data_dirs"
  · subst hk1
    have hbr : setitem fs ok1 ok2 "data_dirs" v st =
        (match set_data_dirs fs ok1 v st with
          | (st1, some e) => (st1, some e)
          | (st1, none) => store ok2 st1) := by
      simp [setitem]
    rw [hbr] at h ⊢
    cases hpair : set_data_dirs fs ok1 v st with
    | mk st1 e =>
      rw [hpair] at h
      cases e with
      | some e1 => simp at h
      | none =>
        simp only at h ⊢
        rcases store_spec ok2 st1 with hsp | hsp
        · rw [hsp.2.2]
        · exact absurd hsp.2.1 (by rw [h]; simp)
  · by_cases hk2 : k = "user_modules"
    · subst hk2
      have hum : setitem fs ok1 ok2 "user_modules" v st =
          (st, some (.valueError userModulesMsg)) := by
        simp [setitem]
      rw [hum] at h
      simp at h
    · have hbr : setitem fs ok1 ok2 k v st =
          store ok1 { st with data := jinsert st.data k v } := by
        simp [setitem, hk1, hk2]
      rw [hbr] at h ⊢
      rcases store_spec ok1 { st with data := jinsert st.data k v } with hsp | hsp
      · rw [hsp.2.2]
      · exact absurd hsp.2.1 (by rw [h]; simp)

theorem runSets_sync (fs : FS) (sets : List (String × JValue)) (st : ParamState)
    (h : (runSets fs true true sets st).2 = none) (hst : st.disk = some st.data) :
    (runSets fs true true sets st).1.disk = some ((runSets fs true true sets st).1.data) := by
  induction sets generalizing st with
  | nil => simpa [runSets] using hst
  | cons kv rest ih =>
    obtain ⟨k, v⟩ := kv
    unfold runSets at h ⊢
    cases hpair : setitem fs true true k v st with
    | mk st1 e =>
      rw [hpair] at h
      cases e with
      | some e1 => simp at h
      | none =>
        simp only at h ⊢
        have h1 := setitem_sync fs true true k v st (by rw [hpair])
        rw [hpair] at h1
        exact ih st1 h h1

/-- C1: round-trip.  After any nonempty sequence of successful `Set` calls
from any starting state, a fresh construction pointed at the same backing
file — whose contents are whatever the sequence left on disk — loads an
in-memory mapping equal to the in-memory mapping the first store held after
the last `Set`: every successful mutation persists the full mapping before
returning. -/
theorem set_roundtrip (fs : FS) (cfs : ConstructFS)
    (sets : List (String × JValue)) (st : ParamState) (p : String)
    (hne : sets ≠ [])
    (hrun : (runSets fs true true sets st).2 = none)
    (hp : cfs.path_exists p = true)
    (hfile : cfs.fileContents (joinPath p sfname) = (runSets fs true true sets st).1.disk) :
    construct cfs true (some p) false =
      .ok { file_path := joinPath p sfname,
            state := { data := (runSets fs true true sets st).1.data,
                       disk := some ((runSets fs true true sets st).1.data),
                       writes := 0 } } := by
  have hsync : (runSets fs true true sets st).1.disk =
      some ((runSets fs true true sets st).1.data) := by
    cases sets with
    | nil => exact absurd rfl hne
    | cons kv rest =>
      obtain ⟨k, v⟩ := kv
      unfold runSets at hrun ⊢
      cases hpair : setitem fs true true k v st with
      | mk st1 e =>
        rw [hpair] at hrun
        cases e with
        | some e1 => simp at hrun
        | none =>
          simp only at hrun ⊢
          have h1 := setitem_sync fs true true k v st (by rw [hpair])
          rw [hpair] at h1
          exact runSets_sync fs rest st1 hrun h1
  have hr : resolve_file_path cfs (some p) false = .ok (some (joinPath p sfname)) := by
    simp [resolve_file_path, hp]
  have hf2 : cfs.fileContents (joinPath p sfname) =
      some ((runSets fs true true sets st).1.data) := by
    rw [hfile, hsync]
  simp [construct, hr, hf2]

/-- Witness for C1 at a concrete input: one successful `Set("custom", 7)` on
`stFT`, then a fresh construction against the resulting file, loads exactly
the mutated mapping. -/
theorem set_roundtrip_witness :
    ([(("custom" : String), JValue.num 7)] ≠ ([] : List (String × JValue))) ∧
    (runSets fs0 true true [("custom", .num 7)] stFT).2 = none ∧
    cfsRT.path_exists "/opt/conf" = true ∧
    cfsRT.fileContents (joinPath "/opt/conf" sfname) =
      (runSets fs0 true true [("custom", .num 7)] stFT).1.disk ∧
    construct cfsRT true (some "/opt/conf") false =
      .ok { file_path := joinPath "/opt/conf" sfname,
            state := { data := (runSets fs0 true true [("custom", .num 7)] stFT).1.data,
                       disk := some ((runSets fs0 true true [("custom", .num 7)] stFT).1.data),
                       writes := 0 } } :=
  ⟨by simp, rfl, rfl, rfl,
   set_roundtrip fs0 cfsRT [("custom", .num 7)] stFT "/opt/conf" (by simp) rfl rfl rfl⟩
